import Mathlib

/-!
Shallow embedding of the GINSE conversation/generation orchestration
(src/App.tsx, src/constants.ts, src/types.ts).

The React component state becomes an explicit `AppState` record; each event
handler becomes a pure state-transition function.  Calls to the external
Generation Client (src/services/geminiService) are opaque: each handler takes
the outcome of every awaited call as an `Except JsError _` oracle argument,
and the call itself is recorded in a ghost trace field `calls` so that
claims about how often the client is invoked can be stated.  Wall-clock
timestamps (`new Date().toLocaleTimeString(...)` at each append) are modelled
by a time oracle `time : Nat → String` indexed by the append position inside
one handler invocation.
-/

namespace Ginse

/-- Embeds `export enum MessageType` from src/types.ts. -/
inductive MessageType
  | TEXT
  | SUGGESTION
  | ARCHITECTURE
  | CODE
  | REFACTOR_ANALYSIS
  | APP_PREVIEW_PROMPT
deriving DecidableEq, Repr

/-- Embeds `export type MessageAuthor = 'user' | 'ai'` from src/types.ts. -/
inductive MessageAuthor
  | user
  | ai
deriving DecidableEq, Repr

/-- Embeds `interface ApiEndpoint` from src/types.ts. -/
structure ApiEndpoint where
  method : String
  path : String
  description : String
deriving DecidableEq, Repr

/-- Embeds `interface Microservice` from src/types.ts. -/
structure Microservice where
  id : String
  name : String
  description : String
  apiEndpoints : List ApiEndpoint
deriving DecidableEq, Repr

/-- The literal union type of `DataStore.type` in src/types.ts. -/
inductive DataStoreType
  | PostgreSQL
  | MongoDB
  | Redis
  | S3Bucket
  | Other
deriving DecidableEq, Repr

/-- Embeds `interface DataStore` from src/types.ts. -/
structure DataStore where
  id : String
  name : String
  type : DataStoreType
  schemaDescription : String
deriving DecidableEq, Repr

/-- Embeds `interface AppArchitecture` from src/types.ts. -/
structure AppArchitecture where
  name : String
  description : String
  microservices : List Microservice
  dataStores : List DataStore
deriving DecidableEq, Repr

/-- Embeds `{ [filename: string]: string }`: a code map, filename to source text. -/
abbrev CodeMap : Type := List (String × String)

/-- Embeds `interface ChatMessage` from src/types.ts. -/
structure ChatMessage where
  author : MessageAuthor
  type : MessageType
  content : String
  suggestionContext : Option String
  architecture : Option AppArchitecture
  code : Option CodeMap
  codeLanguage : Option String
  timestamp : String
deriving DecidableEq, Repr

/-- Embeds `Omit<ChatMessage, 'timestamp'>`: the argument type of `addMessage`. -/
structure PendingMessage where
  author : MessageAuthor
  type : MessageType
  content : String
  suggestionContext : Option String
  architecture : Option AppArchitecture
  code : Option CodeMap
  codeLanguage : Option String
deriving DecidableEq, Repr

/-- Embeds `{ ...message, timestamp: ... }`: attach the captured timestamp. -/
def stamp (ts : String) (m : PendingMessage) : ChatMessage :=
  ⟨m.author, m.type, m.content, m.suggestionContext, m.architecture,
   m.code, m.codeLanguage, ts⟩

/-- A value thrown by the Generation Client: either a JS `Error` carrying a
message, or some other thrown value. -/
inductive JsError
  | error (message : String)
  | nonError
deriving DecidableEq, Repr

/-- Embeds `error instanceof Error ? error.message : "An unknown error occurred."` -/
def jsErrorMessage : JsError → String
  | .error m => m
  | .nonError => "An unknown error occurred."

/-- Ghost trace entry: one awaited invocation of the Generation Client
(src/services/geminiService). -/
inductive ClientCall
  | generateInitialArchitecture (message : String)
  | generateBackendCode (architecture : AppArchitecture)
  | analyzeAndRefactorCode (code : CodeMap)
  | generateFrontendPreview (service : Microservice)
  | generateAppPreview (architecture : AppArchitecture)
deriving DecidableEq, Repr

/-- The `previewData` useState record in src/App.tsx. -/
structure PreviewData where
  name : String
  htmlContent : Option String
  isLoading : Bool
deriving DecidableEq, Repr

/-- All useState slices of the `App` component, plus `sessionStore`
(the `sessionStorage` collaborator) and the ghost call trace. -/
structure AppState where
  chatHistory : List ChatMessage
  isLoading : Bool
  apiKey : Option String
  isPreviewModalOpen : Bool
  previewData : PreviewData
  sessionStore : List (String × String)
  calls : List ClientCall
deriving DecidableEq, Repr

/-- Embeds `sessionStorage.setItem(k, v)`. -/
def storeSetItem (store : List (String × String)) (k v : String) :
    List (String × String) :=
  match store with
  | [] => [(k, v)]
  | (k', v') :: rest =>
      if k' = k then (k, v) :: rest else (k', v') :: storeSetItem rest k v

/-- Embeds `addMessage` from src/App.tsx line 43: stamp the current time and append
at the end of `chatHistory`. -/
def addMessage (ts : String) (m : PendingMessage) (s : AppState) : AppState :=
  { s with chatHistory := s.chatHistory ++ [stamp ts m] }

-- Message content strings, verbatim from src/App.tsx (apostrophes written
-- as \x27 escapes).

def askKeyContent : String :=
  "Please set your API key before we begin."

def summaryContentPre : String :=
  "Excellent. I\x27ve analyzed your vision for \""

def summaryContentPost : String :=
  "\" and generated the initial architecture. I\x27ll also start scaffolding the backend server code for you."

def summaryContent (archName : String) : String :=
  summaryContentPre ++ archName ++ summaryContentPost

def archDiagramContent : String :=
  "Here is the interactive architecture diagram:"

def codeMsgContent : String :=
  "I\x27ve generated the complete Node.js backend for your application. You can inspect the files below."

def appPreviewPromptContent : String :=
  "Now that the core components are ready, I can generate a holistic UI preview for the entire application."

def buildDiagPre : String :=
  "I hit a snag. "

def buildDiagPost : String :=
  ". Could you try describing your app again?"

def buildDiagContent (e : JsError) : String :=
  buildDiagPre ++ jsErrorMessage e ++ buildDiagPost

def analyzingContent : String :=
  "Understood. I\x27m now analyzing the generated code for potential improvements, like adding error handling and validation..."

def refactorDiagPre : String :=
  "I encountered an issue while trying to refactor the code. "

def refactorDiagContent (e : JsError) : String :=
  refactorDiagPre ++ jsErrorMessage e ++ "."

def javascriptTag : String := "javascript"

-- Pending messages built at each `addMessage` call site of src/App.tsx.

/-- Line 49: the "set your API key" prompt. -/
def askKeyMsg : PendingMessage :=
  ⟨.ai, .TEXT, askKeyContent, none, none, none, none⟩

/-- Line 52: the user input, verbatim. -/
def userMsg (message : String) : PendingMessage :=
  ⟨.user, .TEXT, message, none, none, none, none⟩

/-- Lines 58-62: the architecture summary text. -/
def summaryMsg (arch : AppArchitecture) : PendingMessage :=
  ⟨.ai, .TEXT, summaryContent arch.name, none, none, none, none⟩

/-- Lines 64-69: the ARCHITECTURE message carrying the architecture. -/
def archMsg (arch : AppArchitecture) : PendingMessage :=
  ⟨.ai, .ARCHITECTURE, archDiagramContent, none, some arch, none, none⟩

/-- Lines 72-78: the CODE message carrying the generated code map. -/
def codeMsg (backendCode : CodeMap) : PendingMessage :=
  ⟨.ai, .CODE, codeMsgContent, none, none, some backendCode, some javascriptTag⟩

/-- Lines 80-85: the APP_PREVIEW_PROMPT message carrying the architecture. -/
def appPreviewPromptMsg (arch : AppArchitecture) : PendingMessage :=
  ⟨.ai, .APP_PREVIEW_PROMPT, appPreviewPromptContent, none, some arch, none, none⟩

/-- Lines 91-95: the build-pipeline failure diagnostic. -/
def buildDiagMsg (e : JsError) : PendingMessage :=
  ⟨.ai, .TEXT, buildDiagContent e, none, none, none, none⟩

/-- Lines 103-107: the refactor "analyzing" notice. -/
def analyzingMsg : PendingMessage :=
  ⟨.ai, .TEXT, analyzingContent, none, none, none, none⟩

/-- Lines 114-120: the REFACTOR_ANALYSIS message. -/
def refactorAnalysisMsg (analysis : String) (refactoredCode : CodeMap) :
    PendingMessage :=
  ⟨.ai, .REFACTOR_ANALYSIS, analysis, none, none, some refactoredCode,
   some javascriptTag⟩

/-- Lines 125-129: the refactor failure diagnostic. -/
def refactorDiagMsg (e : JsError) : PendingMessage :=
  ⟨.ai, .TEXT, refactorDiagContent e, none, none, none, none⟩

/-- Outcomes of the two awaited calls of the build pipeline. -/
structure BuildOracle where
  archResult : Except JsError AppArchitecture
  codeResult : Except JsError CodeMap

/-- Embeds `handleSendMessage` from src/App.tsx lines 47-99.  `time k` is the
wall-clock string captured by the k-th `addMessage` of this invocation. -/
def handleSendMessage (time : Nat → String) (oracle : BuildOracle)
    (message : String) (s : AppState) : AppState :=
  if s.apiKey = none then
    addMessage (time 0) askKeyMsg s
  else
    let s := addMessage (time 0) (userMsg message) s
    let s := { s with isLoading := true }
    let s := { s with calls := s.calls ++ [ClientCall.generateInitialArchitecture message] }
    let s :=
      match oracle.archResult with
      | .error e => addMessage (time 1) (buildDiagMsg e) s
      | .ok newArch =>
        let s := addMessage (time 1) (summaryMsg newArch) s
        let s := addMessage (time 2) (archMsg newArch) s
        let s := { s with calls := s.calls ++ [ClientCall.generateBackendCode newArch] }
        match oracle.codeResult with
        | .error e => addMessage (time 3) (buildDiagMsg e) s
        | .ok backendCode =>
          let s := addMessage (time 3) (codeMsg backendCode) s
          addMessage (time 4) (appPreviewPromptMsg newArch) s
    { s with isLoading := false }

/-- Embeds `handleRefactorRequest` from src/App.tsx lines 101-133. -/
def handleRefactorRequest (time : Nat → String)
    (oracle : Except JsError (String × CodeMap))
    (codeToRefactor : CodeMap) (s : AppState) : AppState :=
  if s.apiKey = none then
    s
  else
    let s := addMessage (time 0) analyzingMsg s
    let s := { s with isLoading := true }
    let s := { s with calls := s.calls ++ [ClientCall.analyzeAndRefactorCode codeToRefactor] }
    let s :=
      match oracle with
      | .ok (analysis, refactoredCode) =>
          addMessage (time 1) (refactorAnalysisMsg analysis refactoredCode) s
      | .error e => addMessage (time 1) (refactorDiagMsg e) s
    { s with isLoading := false }

/-- The sessionStorage key name used by src/App.tsx. -/
def geminiApiKeyName : String := "gemini-api-key"

/-- Embeds `handleApiKeySubmit` from src/App.tsx lines 31-40: `initResult` is the
outcome of `initializeAi(key)`; on a throw, neither `sessionStorage` nor
`apiKey` is touched (the catch block only logs and alerts). -/
def handleApiKeySubmit (initResult : Except JsError Unit) (key : String)
    (s : AppState) : AppState :=
  match initResult with
  | .ok _ =>
      { s with sessionStore := storeSetItem s.sessionStore geminiApiKeyName key,
               apiKey := some key }
  | .error _ => s

/-- Embeds `isActive()` of the Session Key Holder: an API key is set. -/
def isActive (s : AppState) : Bool := s.apiKey.isSome

def previewErrorHtmlPre : String :=
  "<div class=\"p-8 text-center text-red-400\"><h2 class=\"text-xl font-bold mb-2\">Preview Generation Failed</h2><p>"

def previewErrorHtmlPost : String :=
  "</p></div>"

/-- Line 144: the rendered error fragment for a failed service preview. -/
def previewErrorHtml (e : JsError) : String :=
  previewErrorHtmlPre ++ jsErrorMessage e ++ previewErrorHtmlPost

def appPreviewErrorHtmlPre : String :=
  "<div class=\"p-8 text-center text-red-400\"><h2 class=\"text-xl font-bold mb-2\">App Preview Generation Failed</h2><p>"

/-- Line 158: the rendered error fragment for a failed app preview. -/
def appPreviewErrorHtml (e : JsError) : String :=
  appPreviewErrorHtmlPre ++ jsErrorMessage e ++ previewErrorHtmlPost

def appPreviewSuffix : String := " (App Preview)"

/-- Embeds `handleGeneratePreviewRequest` lines 136-137, up to the `await`: reset
`previewData`, open the modal, and issue the client call. -/
def previewStart (service : Microservice) (s : AppState) : AppState :=
  { s with previewData := ⟨service.name, none, true⟩,
           isPreviewModalOpen := true,
           calls := s.calls ++ [ClientCall.generateFrontendPreview service] }

/-- Embeds `handleGeneratePreviewRequest` lines 139-146, after the `await` resolves
or rejects. -/
def previewResolve (service : Microservice) (result : Except JsError String)
    (s : AppState) : AppState :=
  match result with
  | .ok previewHtml =>
      { s with previewData := ⟨service.name, some previewHtml, false⟩ }
  | .error e =>
      { s with previewData := ⟨service.name, some (previewErrorHtml e), false⟩ }

/-- Embeds `handleGenerateAppPreviewRequest` lines 150-151, up to the `await`. -/
def appPreviewStart (architecture : AppArchitecture) (s : AppState) : AppState :=
  { s with previewData := ⟨architecture.name ++ appPreviewSuffix, none, true⟩,
           isPreviewModalOpen := true,
           calls := s.calls ++ [ClientCall.generateAppPreview architecture] }

/-- Embeds `handleGenerateAppPreviewRequest` lines 153-160, after the `await`. -/
def appPreviewResolve (architecture : AppArchitecture)
    (result : Except JsError String) (s : AppState) : AppState :=
  match result with
  | .ok previewHtml =>
      { s with previewData :=
          ⟨architecture.name ++ appPreviewSuffix, some previewHtml, false⟩ }
  | .error e =>
      { s with previewData :=
          ⟨architecture.name ++ appPreviewSuffix,
           some (appPreviewErrorHtml e), false⟩ }

/-- Embeds `handleGeneratePreviewRequest` run to completion with no interleaving. -/
def handleGeneratePreviewRequest (service : Microservice)
    (result : Except JsError String) (s : AppState) : AppState :=
  previewResolve service result (previewStart service s)

/-- Embeds `handleGenerateAppPreviewRequest` run to completion with no interleaving. -/
def handleGenerateAppPreviewRequest (architecture : AppArchitecture)
    (result : Except JsError String) (s : AppState) : AppState :=
  appPreviewResolve architecture result (appPreviewStart architecture s)

/-- A preview request: either a single service or the whole application. -/
inductive PreviewReq
  | service (service : Microservice)
  | app (architecture : AppArchitecture)
deriving DecidableEq, Repr

/-- The display name the request writes into `previewData.name`. -/
def reqName : PreviewReq → String
  | .service sv => sv.name
  | .app a => a.name ++ appPreviewSuffix

deriving instance DecidableEq for Except

/-- One atomic phase of a preview handler in the cooperative scheduler: the
synchronous part before the `await`, or the continuation after the awaited
client call settles with `result`. -/
inductive PreviewEvent
  | start (r : PreviewReq)
  | settle (r : PreviewReq) (result : Except JsError String)
deriving DecidableEq, Repr

/-- Runs one preview phase on the state. -/
def applyPreviewEvent : PreviewEvent → AppState → AppState
  | .start (.service sv), s => previewStart sv s
  | .start (.app a), s => appPreviewStart a s
  | .settle (.service sv) res, s => previewResolve sv res s
  | .settle (.app a) res, s => appPreviewResolve a res s

/-- Runs a whole interleaving of preview phases in order. -/
def runPreviewEvents (es : List PreviewEvent) (s : AppState) : AppState :=
  es.foldl (fun s e => applyPreviewEvent e s) s

/-- One entry-point invocation of the App component, with all its oracle
inputs attached. -/
inductive AppOp
  | sendMessage (time : Nat → String) (oracle : BuildOracle) (message : String)
  | refactorRequest (time : Nat → String)
      (oracle : Except JsError (String × CodeMap)) (codeToRefactor : CodeMap)
  | apiKeySubmit (initResult : Except JsError Unit) (key : String)
  | preview (e : PreviewEvent)
  | closeModal

/-- Runs one entry-point invocation.  `closeModal` is the PreviewModal
`onClose` callback (line 181): `setPreviewModalOpen(false)`. -/
def applyOp : AppOp → AppState → AppState
  | .sendMessage time oracle message, s => handleSendMessage time oracle message s
  | .refactorRequest time oracle cm, s => handleRefactorRequest time oracle cm s
  | .apiKeySubmit r key, s => handleApiKeySubmit r key s
  | .preview e, s => applyPreviewEvent e s
  | .closeModal, s => { s with isPreviewModalOpen := false }

/-- Runs a sequence of entry-point invocations in order. -/
def run (ops : List AppOp) (s : AppState) : AppState :=
  ops.foldl (fun s op => applyOp op s) s

/-- Content of the seed message of `INITIAL_CHAT_MESSAGES` in
src/constants.ts. -/
def welcomeContent : String :=
  "Welcome! I\x27m your AI development partner. Describe the app you want to build, and I\x27ll generate the architecture, code, and UI previews for you."

/-- The seed message of src/constants.ts, with `t0` the timestamp captured at
module load. -/
def welcomeMessage (t0 : String) : ChatMessage :=
  ⟨.ai, .TEXT, welcomeContent, none, none, none, none, t0⟩

/-- Embeds `INITIAL_CHAT_MESSAGES` from src/constants.ts lines 4-11. -/
def INITIAL_CHAT_MESSAGES (t0 : String) : List ChatMessage :=
  [welcomeMessage t0]

/-- The initial component state (src/App.tsx lines 11-21): seeded chat
history, not loading, no API key, preview modal closed, empty preview data;
`store` is whatever the browser sessionStorage already holds. -/
def initState (t0 : String) (store : List (String × String)) : AppState :=
  ⟨INITIAL_CHAT_MESSAGES t0, false, none, false, ⟨"", none, false⟩, store, []⟩

/-- Folds a list of timestamped pending messages into the store through
`addMessage`, modelling an arbitrary sequence of appends. -/
def appendAll (pending : List (String × PendingMessage)) (s : AppState) :
    AppState :=
  pending.foldl (fun s p => addMessage p.1 p.2 s) s

/-- Recognizes the refactor-pipeline failure diagnostic: an ai TEXT message
whose content starts with the fixed diagnostic sentence of src/App.tsx
line 128. -/
def isRefactorDiagnostic (m : ChatMessage) : Bool :=
  m.author == MessageAuthor.ai && m.type == MessageType.TEXT &&
    refactorDiagPre.data.isPrefixOf m.content.data

/-- Recognizes a REFACTOR_ANALYSIS message. -/
def isRefactorAnalysis (m : ChatMessage) : Bool :=
  m.type == MessageType.REFACTOR_ANALYSIS

/-- Derived characterization: the messages `handleSendMessage` appends on the
key-active path, by the outcomes of the two client calls. -/
def buildSuffix (time : Nat → String) (oracle : BuildOracle) (message : String) :
    List ChatMessage :=
  match oracle.archResult with
  | .error e => [stamp (time 0) (userMsg message), stamp (time 1) (buildDiagMsg e)]
  | .ok arch =>
    match oracle.codeResult with
    | .error e =>
        [stamp (time 0) (userMsg message), stamp (time 1) (summaryMsg arch),
         stamp (time 2) (archMsg arch), stamp (time 3) (buildDiagMsg e)]
    | .ok code =>
        [stamp (time 0) (userMsg message), stamp (time 1) (summaryMsg arch),
         stamp (time 2) (archMsg arch), stamp (time 3) (codeMsg code),
         stamp (time 4) (appPreviewPromptMsg arch)]

/-- Derived characterization: the client calls `handleSendMessage` issues on
the key-active path. -/
def buildCalls (oracle : BuildOracle) (message : String) : List ClientCall :=
  match oracle.archResult with
  | .error _ => [ClientCall.generateInitialArchitecture message]
  | .ok arch =>
      [ClientCall.generateInitialArchitecture message,
       ClientCall.generateBackendCode arch]

/-- Derived characterization: the result message the refactor pipeline
appends after the client call settles. -/
def refactorResultMsg : Except JsError (String × CodeMap) → PendingMessage
  | .ok p => refactorAnalysisMsg p.1 p.2
  | .error e => refactorDiagMsg e

-- Concrete sample inputs used by witnesses and counterexamples.

def tSample : Nat → String := fun k => toString k
def keySample : String := "key-1"
def msgSample : String := "build a shop"
def failSample : String := "quota exceeded"
def analysisSample : String := "add input validation"
def htmlSample1 : String := "<p>one</p>"
def htmlSample2 : String := "<p>two</p>"
def svcSample : Microservice := ⟨"svc1", "Users", "user service", []⟩
def svcSample2 : Microservice := ⟨"svc2", "Orders", "order service", []⟩
def archSample : AppArchitecture := ⟨"ShopApp", "a shop", [svcSample], []⟩
def codeMapSample : CodeMap := [("index.js", "server")]
def stateActive : AppState := ⟨[], false, some keySample, false, ⟨"", none, false⟩, [], []⟩
def stateNoKey : AppState := ⟨[], false, none, false, ⟨"", none, false⟩, [], []⟩
def buildOracleSample : BuildOracle := ⟨Except.ok archSample, Except.ok codeMapSample⟩
def refactorOracleSample : Except JsError (String × CodeMap) :=
  Except.ok (analysisSample, [])
def htmlOracleSample : Except JsError String := Except.ok htmlSample1
def htmlOracleSample2 : Except JsError String := Except.ok htmlSample2

/-- An active key is not `none`. -/
theorem active_ne_none (s : AppState) (h : isActive s = true) :
    ¬ s.apiKey = none := by
  intro hn
  rw [isActive, hn] at h
  simp at h

/-- Full-state characterization of the build pipeline. -/
theorem handleSendMessage_eq (time : Nat → String) (oracle : BuildOracle)
    (message : String) (s : AppState) :
    handleSendMessage time oracle message s =
      if s.apiKey = none then
        { s with chatHistory := s.chatHistory ++ [stamp (time 0) askKeyMsg] }
      else
        { s with chatHistory := s.chatHistory ++ buildSuffix time oracle message,
                 isLoading := false,
                 calls := s.calls ++ buildCalls oracle message } := by
  by_cases h : s.apiKey = none
  · simp [handleSendMessage, h, addMessage]
  · rcases oracle with ⟨aR, cR⟩
    cases aR <;> cases cR <;>
      simp [handleSendMessage, h, addMessage, buildSuffix, buildCalls]

/-- Full-state characterization of the refactor pipeline. -/
theorem handleRefactorRequest_eq (time : Nat → String)
    (oracle : Except JsError (String × CodeMap)) (cm : CodeMap) (s : AppState) :
    handleRefactorRequest time oracle cm s =
      if s.apiKey = none then s
      else
        { s with chatHistory := s.chatHistory ++
                   [stamp (time 0) analyzingMsg,
                    stamp (time 1) (refactorResultMsg oracle)],
                 isLoading := false,
                 calls := s.calls ++ [ClientCall.analyzeAndRefactorCode cm] } := by
  by_cases h : s.apiKey = none
  · simp [handleRefactorRequest, h]
  · cases oracle with
    | ok p =>
        cases p
        simp [handleRefactorRequest, h, addMessage, refactorResultMsg]
    | error e =>
        simp [handleRefactorRequest, h, addMessage, refactorResultMsg]

/-- Every entry-point invocation only extends the chat history on the right. -/
theorem applyOp_chatHistory_extend (op : AppOp) (s : AppState) :
    ∃ l, (applyOp op s).chatHistory = s.chatHistory ++ l := by
  cases op with
  | sendMessage time oracle message =>
      by_cases h : s.apiKey = none
      · exact ⟨[stamp (time 0) askKeyMsg],
          by simp [applyOp, handleSendMessage_eq, h]⟩
      · exact ⟨buildSuffix time oracle message,
          by simp [applyOp, handleSendMessage_eq, h]⟩
  | refactorRequest time oracle cm =>
      by_cases h : s.apiKey = none
      · exact ⟨[], by simp [applyOp, handleRefactorRequest_eq, h]⟩
      · exact ⟨[stamp (time 0) analyzingMsg,
                stamp (time 1) (refactorResultMsg oracle)],
          by simp [applyOp, handleRefactorRequest_eq, h]⟩
  | apiKeySubmit r key =>
      refine ⟨[], ?_⟩
      cases r <;> simp [applyOp, handleApiKeySubmit]
  | preview e =>
      refine ⟨[], ?_⟩
      rcases e with r | ⟨r, res⟩
      · cases r <;>
          simp [applyOp, applyPreviewEvent, previewStart, appPreviewStart]
      · cases r <;> cases res <;>
          simp [applyOp, applyPreviewEvent, previewResolve, appPreviewResolve]
  | closeModal =>
      exact ⟨[], by simp [applyOp]⟩

/-- Any sequence of entry-point invocations only extends the chat history. -/
theorem run_chatHistory_extend (ops : List AppOp) (s : AppState) :
    ∃ l, (run ops s).chatHistory = s.chatHistory ++ l := by
  induction ops generalizing s with
  | nil => exact ⟨[], by simp [run]⟩
  | cons op rest ih =>
      obtain ⟨l1, h1⟩ := applyOp_chatHistory_extend op s
      obtain ⟨l2, h2⟩ := ih (applyOp op s)
      refine ⟨l1 ++ l2, ?_⟩
      have : run (op :: rest) s = run rest (applyOp op s) := rfl
      rw [this, h2, h1, List.append_assoc]

/-- Folding appends through `addMessage` yields exactly the stamped messages
in order. -/
theorem appendAll_chatHistory (pending : List (String × PendingMessage))
    (s : AppState) :
    (appendAll pending s).chatHistory =
      s.chatHistory ++ pending.map (fun p => stamp p.1 p.2) := by
  induction pending generalizing s with
  | nil => simp [appendAll]
  | cons p rest ih =>
      have h := ih (addMessage p.1 p.2 s)
      simp only [appendAll, List.foldl_cons] at h ⊢
      rw [h]
      simp [addMessage]

/-- C1: with an active API key, when both generation calls succeed,
`handleSendMessage` appends exactly five entries in order: the user TEXT
input verbatim, an ai TEXT summary referencing the architecture name, an ai
ARCHITECTURE message carrying the generated architecture, an ai CODE message
carrying the generated code map, and an ai APP_PREVIEW_PROMPT message
carrying the same architecture. -/
theorem build_success_appends_five (time : Nat → String)
    (arch : AppArchitecture) (code : CodeMap) (message : String)
    (s : AppState) (h : isActive s = true) :
    (handleSendMessage time ⟨Except.ok arch, Except.ok code⟩ message s).chatHistory =
      s.chatHistory ++
        [stamp (time 0) (userMsg message),
         stamp (time 1) (summaryMsg arch),
         stamp (time 2) (archMsg arch),
         stamp (time 3) (codeMsg code),
         stamp (time 4) (appPreviewPromptMsg arch)] := by
  have hne := active_ne_none s h
  simp [handleSendMessage_eq, hne, buildSuffix]

theorem build_success_appends_five_witness :
    isActive stateActive = true ∧
    (handleSendMessage tSample ⟨Except.ok archSample, Except.ok codeMapSample⟩
        msgSample stateActive).chatHistory =
      stateActive.chatHistory ++
        [stamp (tSample 0) (userMsg msgSample),
         stamp (tSample 1) (summaryMsg archSample),
         stamp (tSample 2) (archMsg archSample),
         stamp (tSample 3) (codeMsg codeMapSample),
         stamp (tSample 4) (appPreviewPromptMsg archSample)] :=
  ⟨rfl, build_success_appends_five tSample archSample codeMapSample msgSample
    stateActive rfl⟩

/-- C2: with an active API key, when the architecture call succeeds but the
code-generation call fails, `handleSendMessage` appends exactly four entries
(user TEXT, ai TEXT summary, ai ARCHITECTURE, ai TEXT diagnostic), issues
exactly the two recorded client calls, ends with the loading flag false, and
none of the appended entries is a CODE or APP_PREVIEW_PROMPT message. -/
theorem build_codegen_failure_appends_four (time : Nat → String)
    (arch : AppArchitecture) (e : JsError) (message : String)
    (s : AppState) (h : isActive s = true) :
    handleSendMessage time ⟨Except.ok arch, Except.error e⟩ message s =
      { s with
        chatHistory := s.chatHistory ++
          [stamp (time 0) (userMsg message),
           stamp (time 1) (summaryMsg arch),
           stamp (time 2) (archMsg arch),
           stamp (time 3) (buildDiagMsg e)],
        isLoading := false,
        calls := s.calls ++
          [ClientCall.generateInitialArchitecture message,
           ClientCall.generateBackendCode arch] } ∧
    ∀ m ∈ [stamp (time 0) (userMsg message), stamp (time 1) (summaryMsg arch),
           stamp (time 2) (archMsg arch), stamp (time 3) (buildDiagMsg e)],
      m.type ≠ MessageType.CODE ∧ m.type ≠ MessageType.APP_PREVIEW_PROMPT := by
  have hne := active_ne_none s h
  constructor
  · simp [handleSendMessage_eq, hne, buildSuffix, buildCalls]
  · intro m hm
    simp only [List.mem_cons, List.not_mem_nil, or_false] at hm
    rcases hm with rfl | rfl | rfl | rfl <;>
      exact ⟨(fun hc => nomatch hc), (fun hc => nomatch hc)⟩

theorem build_codegen_failure_appends_four_witness :
    isActive stateActive = true ∧
    (handleSendMessage tSample
        ⟨Except.ok archSample, Except.error (JsError.error failSample)⟩
        msgSample stateActive =
      { stateActive with
        chatHistory := stateActive.chatHistory ++
          [stamp (tSample 0) (userMsg msgSample),
           stamp (tSample 1) (summaryMsg archSample),
           stamp (tSample 2) (archMsg archSample),
           stamp (tSample 3) (buildDiagMsg (JsError.error failSample))],
        isLoading := false,
        calls := stateActive.calls ++
          [ClientCall.generateInitialArchitecture msgSample,
           ClientCall.generateBackendCode archSample] } ∧
    ∀ m ∈ [stamp (tSample 0) (userMsg msgSample),
           stamp (tSample 1) (summaryMsg archSample),
           stamp (tSample 2) (archMsg archSample),
           stamp (tSample 3) (buildDiagMsg (JsError.error failSample))],
      m.type ≠ MessageType.CODE ∧ m.type ≠ MessageType.APP_PREVIEW_PROMPT) :=
  ⟨rfl, build_codegen_failure_appends_four tSample archSample
    (JsError.error failSample) msgSample stateActive rfl⟩

/-- C3 counterexample: with no active key, the refactor pipeline appends no
message at all (rather than an ai TEXT message asking for a key), and the
service-preview pipeline performs no key check and invokes the Generation
Client anyway — so the claim that every generation-invoking operation
appends a key prompt and refrains from calling the client is false. -/
theorem key_gating_cex :
    isActive stateNoKey = false ∧
    (handleRefactorRequest tSample refactorOracleSample codeMapSample
        stateNoKey).chatHistory = stateNoKey.chatHistory ∧
    (handleGeneratePreviewRequest svcSample htmlOracleSample stateNoKey).calls =
      stateNoKey.calls ++ [ClientCall.generateFrontendPreview svcSample] :=
  ⟨rfl, rfl, rfl⟩

/-- C3 amended: when no session key is active, only the build pipeline
appends an ai TEXT message asking for a key and returns without calling the
Generation Client; the refactor pipeline returns without calling the client
but appends no message; the two preview pipelines perform no key check and
invoke the Generation Client regardless. -/
theorem key_gating_actual (time : Nat → String) (oracle : BuildOracle)
    (roracle : Except JsError (String × CodeMap)) (message : String)
    (cm : CodeMap) (svc : Microservice) (arch : AppArchitecture)
    (res res2 : Except JsError String) (s : AppState)
    (h : s.apiKey = none) :
    ((handleSendMessage time oracle message s).chatHistory =
        s.chatHistory ++ [stamp (time 0) askKeyMsg] ∧
      (handleSendMessage time oracle message s).calls = s.calls) ∧
    handleRefactorRequest time roracle cm s = s ∧
    (handleGeneratePreviewRequest svc res s).calls =
      s.calls ++ [ClientCall.generateFrontendPreview svc] ∧
    (handleGenerateAppPreviewRequest arch res2 s).calls =
      s.calls ++ [ClientCall.generateAppPreview arch] := by
  refine ⟨⟨?_, ?_⟩, ?_, ?_, ?_⟩
  · simp [handleSendMessage_eq, h]
  · simp [handleSendMessage_eq, h]
  · simp [handleRefactorRequest_eq, h]
  · cases res <;>
      simp [handleGeneratePreviewRequest, previewStart, previewResolve]
  · cases res2 <;>
      simp [handleGenerateAppPreviewRequest, appPreviewStart, appPreviewResolve]

theorem key_gating_actual_witness :
    stateNoKey.apiKey = none ∧
    (((handleSendMessage tSample buildOracleSample msgSample
          stateNoKey).chatHistory =
        stateNoKey.chatHistory ++ [stamp (tSample 0) askKeyMsg] ∧
      (handleSendMessage tSample buildOracleSample msgSample
          stateNoKey).calls = stateNoKey.calls) ∧
    handleRefactorRequest tSample refactorOracleSample codeMapSample
        stateNoKey = stateNoKey ∧
    (handleGeneratePreviewRequest svcSample htmlOracleSample stateNoKey).calls =
      stateNoKey.calls ++ [ClientCall.generateFrontendPreview svcSample] ∧
    (handleGenerateAppPreviewRequest archSample htmlOracleSample2
        stateNoKey).calls =
      stateNoKey.calls ++ [ClientCall.generateAppPreview archSample]) :=
  ⟨rfl, key_gating_actual tSample buildOracleSample refactorOracleSample
    msgSample codeMapSample svcSample archSample htmlOracleSample
    htmlOracleSample2 stateNoKey rfl⟩

/-- C4 counterexample: issue a preview for `svcSample`, then one for
`svcSample2`; the second request settles first, then the first request's
call settles late — the final PreviewState carries the first request's name
and HTML, overwriting the state the newer request had established, so the
claim that a late result never overwrites the newer request's state is
false. -/
theorem preview_stale_overwrite_cex :
    (runPreviewEvents
        [PreviewEvent.start (PreviewReq.service svcSample),
         PreviewEvent.start (PreviewReq.service svcSample2),
         PreviewEvent.settle (PreviewReq.service svcSample2) htmlOracleSample2,
         PreviewEvent.settle (PreviewReq.service svcSample) htmlOracleSample]
        stateActive).previewData =
      ⟨svcSample.name, some htmlSample1, false⟩ ∧
    svcSample.name ≠ svcSample2.name :=
  ⟨rfl, by decide⟩

/-- C4 amended: a second preview request issued while the first is loading
does immediately reset PreviewState to the new name with `isLoading` true
and no HTML; but there is no staleness guard, so when the first request's
client call settles after the second request has completed, the first
request's result overwrites the state established by the newer request. -/
theorem preview_reset_and_stale_overwrite (r1 r2 : PreviewReq)
    (res1 res2 : Except JsError String) (s : AppState) :
    (applyPreviewEvent (PreviewEvent.start r2)
        (applyPreviewEvent (PreviewEvent.start r1) s)).previewData =
      ⟨reqName r2, none, true⟩ ∧
    (runPreviewEvents
        [PreviewEvent.start r1, PreviewEvent.start r2,
         PreviewEvent.settle r2 res2, PreviewEvent.settle r1 res1]
        s).previewData =
      (applyPreviewEvent (PreviewEvent.settle r1 res1) s).previewData := by
  constructor
  · cases r1 <;> cases r2 <;>
      simp [applyPreviewEvent, previewStart, appPreviewStart, reqName]
  · cases r1 <;> cases r2 <;> cases res1 <;> cases res2 <;>
      simp [runPreviewEvents, applyPreviewEvent, previewStart, appPreviewStart,
        previewResolve, appPreviewResolve]

/-- C5: the conversation store is append-only: a sequence of `addMessage`
appends yields exactly the stamped messages in append order on the right of
the prior history, and every entry-point invocation of the app only extends
the history on the right, never removing, reordering, or mutating an
existing entry. -/
theorem store_append_only :
    (∀ (pending : List (String × PendingMessage)) (s : AppState),
       (appendAll pending s).chatHistory =
         s.chatHistory ++ pending.map (fun p => stamp p.1 p.2)) ∧
    (∀ (ops : List AppOp) (s : AppState),
       ∃ l, (run ops s).chatHistory = s.chatHistory ++ l) :=
  ⟨fun pending s => appendAll_chatHistory pending s,
   fun ops s => run_chatHistory_extend ops s⟩

/-- C6: every build-pipeline and refactor-pipeline invocation that enters
the loading state (that is, runs with an active key) leaves the loading
flag false when it completes, on success and failure paths alike. -/
theorem loading_released :
    (∀ (time : Nat → String) (oracle : BuildOracle) (message : String)
       (s : AppState), isActive s = true →
         (handleSendMessage time oracle message s).isLoading = false) ∧
    (∀ (time : Nat → String) (oracle : Except JsError (String × CodeMap))
       (cm : CodeMap) (s : AppState), isActive s = true →
         (handleRefactorRequest time oracle cm s).isLoading = false) := by
  constructor
  · intro time oracle message s h
    have hne := active_ne_none s h
    simp [handleSendMessage_eq, hne]
  · intro time oracle cm s h
    have hne := active_ne_none s h
    simp [handleRefactorRequest_eq, hne]

theorem loading_released_witness :
    isActive stateActive = true ∧
    (handleSendMessage tSample
        ⟨Except.error (JsError.error failSample), Except.ok codeMapSample⟩
        msgSample stateActive).isLoading = false ∧
    (handleRefactorRequest tSample (Except.error JsError.nonError)
        codeMapSample stateActive).isLoading = false :=
  ⟨rfl,
   loading_released.1 tSample
     ⟨Except.error (JsError.error failSample), Except.ok codeMapSample⟩
     msgSample stateActive rfl,
   loading_released.2 tSample (Except.error JsError.nonError)
     codeMapSample stateActive rfl⟩

/-- C7: when `initializeAi` throws, `handleApiKeySubmit` leaves the entire
state unchanged: the stored key, the durable session-store entry, and the
result of `isActive` all keep their prior values. -/
theorem apiKeySubmit_failure_leaves_state (e : JsError) (key : String)
    (s : AppState) :
    handleApiKeySubmit (Except.error e) key s = s ∧
    isActive (handleApiKeySubmit (Except.error e) key s) = isActive s ∧
    (handleApiKeySubmit (Except.error e) key s).sessionStore = s.sessionStore ∧
    (handleApiKeySubmit (Except.error e) key s).apiKey = s.apiKey :=
  ⟨rfl, rfl, rfl, rfl⟩

/-- C8: for every code map (the empty map included), a refactor invocation
with an active key records exactly one Generation Client call, and the
appended part of the history contains exactly one REFACTOR_ANALYSIS message
and no TEXT diagnostic on success, or exactly one TEXT diagnostic and no
REFACTOR_ANALYSIS message on failure — never both. -/
theorem refactor_one_call_one_result (time : Nat → String)
    (oracle : Except JsError (String × CodeMap)) (cm : CodeMap) (s : AppState)
    (h : isActive s = true) :
    (handleRefactorRequest time oracle cm s).calls =
      s.calls ++ [ClientCall.analyzeAndRefactorCode cm] ∧
    ∃ appended,
      (handleRefactorRequest time oracle cm s).chatHistory =
        s.chatHistory ++ appended ∧
      (match oracle with
       | .ok _ => appended.countP isRefactorAnalysis = 1 ∧
                  appended.countP isRefactorDiagnostic = 0
       | .error _ => appended.countP isRefactorAnalysis = 0 ∧
                     appended.countP isRefactorDiagnostic = 1) := by
  have hne := active_ne_none s h
  have hnp : refactorDiagPre.data.isPrefixOf analyzingContent.data = false := by
    decide
  refine ⟨by simp [handleRefactorRequest_eq, hne],
    ⟨[stamp (time 0) analyzingMsg, stamp (time 1) (refactorResultMsg oracle)],
     by simp [handleRefactorRequest_eq, hne], ?_⟩⟩
  cases oracle with
  | ok p =>
      simp [List.countP_cons, List.countP_nil, isRefactorAnalysis,
        isRefactorDiagnostic, stamp, analyzingMsg, refactorResultMsg,
        refactorAnalysisMsg, hnp]
  | error e =>
      have hp : refactorDiagPre.data.isPrefixOf (refactorDiagContent e).data
          = true := by
        rw [List.isPrefixOf_iff_prefix, refactorDiagContent]
        simp [String.data_append, List.append_assoc]
      simp [List.countP_cons, List.countP_nil, isRefactorAnalysis,
        isRefactorDiagnostic, stamp, analyzingMsg, refactorResultMsg,
        refactorDiagMsg, hnp, hp]

theorem refactor_one_call_one_result_witness :
    isActive stateActive = true ∧
    ((handleRefactorRequest tSample refactorOracleSample [] stateActive).calls =
        stateActive.calls ++ [ClientCall.analyzeAndRefactorCode []] ∧
      ∃ appended,
        (handleRefactorRequest tSample refactorOracleSample []
            stateActive).chatHistory = stateActive.chatHistory ++ appended ∧
        (match refactorOracleSample with
         | .ok _ => appended.countP isRefactorAnalysis = 1 ∧
                    appended.countP isRefactorDiagnostic = 0
         | .error _ => appended.countP isRefactorAnalysis = 0 ∧
                       appended.countP isRefactorDiagnostic = 1)) :=
  ⟨rfl, refactor_one_call_one_result tSample refactorOracleSample []
    stateActive rfl⟩

/-- C9: when no API key is active, the build pipeline never records the user
input: the only entry appended is a single ai TEXT message asking for a key
(so no user-authored message carrying the input is added), and no client
call is made. -/
theorem build_no_key_records_nothing (time : Nat → String)
    (oracle : BuildOracle) (message : String) (s : AppState)
    (h : s.apiKey = none) :
    (handleSendMessage time oracle message s).chatHistory =
      s.chatHistory ++ [stamp (time 0) askKeyMsg] ∧
    (handleSendMessage time oracle message s).calls = s.calls ∧
    (stamp (time 0) askKeyMsg).author = MessageAuthor.ai ∧
    (stamp (time 0) askKeyMsg).type = MessageType.TEXT ∧
    (stamp (time 0) askKeyMsg).content = askKeyContent := by
  refine ⟨?_, ?_, rfl, rfl, rfl⟩ <;> simp [handleSendMessage_eq, h]

theorem build_no_key_records_nothing_witness :
    stateNoKey.apiKey = none ∧
    ((handleSendMessage tSample buildOracleSample msgSample
        stateNoKey).chatHistory =
      stateNoKey.chatHistory ++ [stamp (tSample 0) askKeyMsg] ∧
    (handleSendMessage tSample buildOracleSample msgSample stateNoKey).calls =
      stateNoKey.calls ∧
    (stamp (tSample 0) askKeyMsg).author = MessageAuthor.ai ∧
    (stamp (tSample 0) askKeyMsg).type = MessageType.TEXT ∧
    (stamp (tSample 0) askKeyMsg).content = askKeyContent) :=
  ⟨rfl, build_no_key_records_nothing tSample buildOracleSample msgSample
    stateNoKey rfl⟩

/-- C10: in every reachable state the chat history is non-empty and its
first entry is still the seed welcome message of `INITIAL_CHAT_MESSAGES`;
every operation preserves it. -/
theorem welcome_message_first (t0 : String) (store : List (String × String))
    (ops : List AppOp) :
    (run ops (initState t0 store)).chatHistory ≠ [] ∧
    (run ops (initState t0 store)).chatHistory.head? =
      some (welcomeMessage t0) := by
  obtain ⟨l, hl⟩ := run_chatHistory_extend ops (initState t0 store)
  rw [hl]
  exact ⟨by simp [initState, INITIAL_CHAT_MESSAGES],
         by simp [initState, INITIAL_CHAT_MESSAGES]⟩

end Ginse
